import Mathlib

/-!
Shallow embedding of the forecasting and inventory decision engine of the
Salezy sample application (the TypeScript module `forecasting.ts` and the
computational parts of the `ForecastDashboard` component).

Modelling conventions:
* JavaScript numbers are modelled as exact rationals (`ℚ`).
* `Math.round x` is `⌊x + 1/2⌋` (JS rounds half towards positive infinity).
* The metrics record stores `mse` (the mean squared error); the source's
  `rmse = Math.sqrt(mse)` is expressed as `Real.sqrt mse` in theorem
  statements, since the square root of a rational is not rational.
* The impure `new Date()` producing tomorrow's date string is passed in as
  an explicit `tomorrow : String` parameter.
* `Array.prototype.sort` with the comparator `(a, b) => a.mape - b.mape`
  is a stable ascending sort by `mape`; it is modelled by a stable
  insertion sort.
-/

namespace Salezy

/-- JavaScript `Math.round`: round half up. -/
def jsRound (x : ℚ) : ℤ := ⌊x + 1/2⌋

/-- One row of the sales history (interface `SalesDataPoint`). -/
structure SalesDataPoint where
  date : String
  quantity_sold : ℚ
  is_festival : Bool
deriving DecidableEq, Repr

/-- One entry of a forecast's `predictions` array. -/
structure Prediction where
  date : String
  value : ℚ
deriving DecidableEq, Repr

/-- Default used to model JS array indexing out of range. -/
def dummyPoint : SalesDataPoint := { date := "", quantity_sold := 0, is_festival := false }

/-- Default used to model JS array indexing out of range. -/
def dummyPrediction : Prediction := { date := "", value := 0 }

/-- The error metrics of a forecast.  The source stores `rmse`; we store its
square `mse` so that the record stays rational, and write `Real.sqrt mse`
in statements about `rmse`. -/
structure Metrics where
  mae : ℚ
  mse : ℚ
  mape : ℚ
deriving DecidableEq, Repr

/-- Interface `ForecastResult`. -/
structure ForecastResult where
  model : String
  predictions : List Prediction
  metrics : Metrics
  confidence : ℚ
deriving DecidableEq, Repr

/-- Embeds `calculateMetrics`: the loop runs over `i < min actual.length
predicted.length`, which is exactly the index range of `actual.zip
predicted`; `mae`, `mse` and `mape` accumulate per-index terms and are then
divided by `n`. -/
def calculateMetrics (actual predicted : List ℚ) : Metrics :=
  let pairs := actual.zip predicted
  let n : ℚ := pairs.length
  let maeSum := (pairs.map (fun p => |p.1 - p.2|)).sum
  let mseSum := (pairs.map (fun p => |p.1 - p.2| * |p.1 - p.2|)).sum
  let mapeSum := (pairs.map (fun p => if p.1 ≠ 0 then |(p.1 - p.2) / p.1| else 0)).sum
  { mae := maeSum / n
    mse := mseSum / n
    mape := mapeSum / n * 100 }

/-- Embeds `movingAverage`: fitted prediction at each index `i` from `window` on is
the rounded mean of the `window` preceding values; one forward prediction
dated `tomorrow` is appended (rounded mean of the last `window` values);
metrics compare the history from index `window` on against the fitted
predictions. -/
def movingAverage (data : List SalesDataPoint) (tomorrow : String)
    (window : ℕ := 7) : ForecastResult :=
  let values := data.map (·.quantity_sold)
  let fitted : List Prediction :=
    (List.range' window (values.length - window)).map (fun i =>
      { date := (data.getD i dummyPoint).date
        value := (jsRound (((values.drop (i - window)).take window).sum / (window : ℚ)) : ℚ) })
  let lastWindowValues := values.drop (values.length - window)
  let nextPrediction := lastWindowValues.sum / (window : ℚ)
  let predictions := fitted ++ [{ date := tomorrow, value := (jsRound nextPrediction : ℚ) }]
  let actual := values.drop window
  let predicted := predictions.dropLast.map (·.value)
  let metrics := calculateMetrics actual predicted
  { model := "Moving Average"
    predictions := predictions
    metrics := metrics
    confidence := max 0 (100 - metrics.mape) }

/-- The smoothed values produced by the loop of `exponentialSmoothing`
starting from the running forecast `f`. -/
def smoothedValues (alpha f : ℚ) : List ℚ → List ℚ
  | [] => []
  | v :: rest => (alpha * v + (1 - alpha) * f) :: smoothedValues alpha (alpha * v + (1 - alpha) * f) rest

/-- Embeds `exponentialSmoothing`: the running forecast is seeded with the first
value and updated by `alpha * v + (1 - alpha) * forecast` at each later
index; every index gets a rounded fitted prediction, and the final smoothed
value is appended as the forward prediction dated `tomorrow`. -/
def exponentialSmoothing (data : List SalesDataPoint) (tomorrow : String)
    (alpha : ℚ := 3/10) : ForecastResult :=
  let values := data.map (·.quantity_sold)
  let f0 := values.headD 0
  let fittedValues := f0 :: smoothedValues alpha f0 values.tail
  let finalForecast := fittedValues.getLastD f0
  let fitted : List Prediction :=
    (data.zip fittedValues).map (fun p => { date := p.1.date, value := (jsRound p.2 : ℚ) })
  let predictions := fitted ++ [{ date := tomorrow, value := (jsRound finalForecast : ℚ) }]
  let actual := values
  let predicted := predictions.dropLast.map (·.value)
  let metrics := calculateMetrics actual predicted
  { model := "Exponential Smoothing"
    predictions := predictions
    metrics := metrics
    confidence := max 0 (100 - metrics.mape) }

/-- Embeds `linearRegression`: ordinary least squares of the values against the
index positions `0 .. n-1`; fitted value at `i` is `max 0 (round (slope * i
+ intercept))`, and the forward prediction uses `i = n`. -/
def linearRegression (data : List SalesDataPoint) (tomorrow : String) : ForecastResult :=
  let n := data.length
  let values := data.map (·.quantity_sold)
  let sumX : ℚ := ((List.range n).map (fun i => (i : ℚ))).sum
  let sumY : ℚ := values.sum
  let sumXY : ℚ := ((List.range n).map (fun (i : ℕ) => (i : ℚ) * values.getD i 0)).sum
  let sumXX : ℚ := ((List.range n).map (fun i => (i : ℚ) * (i : ℚ))).sum
  let slope := ((n : ℚ) * sumXY - sumX * sumY) / ((n : ℚ) * sumXX - sumX * sumX)
  let intercept := (sumY - slope * sumX) / (n : ℚ)
  let fitted : List Prediction :=
    (List.range n).map (fun i =>
      { date := (data.getD i dummyPoint).date
        value := (max 0 (jsRound (slope * (i : ℚ) + intercept)) : ℤ) })
  let predictions := fitted ++
    [{ date := tomorrow, value := (max 0 (jsRound (slope * (n : ℚ) + intercept)) : ℤ) }]
  let actual := values
  let predicted := predictions.dropLast.map (·.value)
  let metrics := calculateMetrics actual predicted
  { model := "Linear Regression"
    predictions := predictions
    metrics := metrics
    confidence := max 0 (100 - metrics.mape) }

/-- Stable insertion into a list already sorted by ascending `mape`: the
inserted element goes before every later element with an equal key, which
is exactly the stable behaviour of `Array.prototype.sort`. -/
def insertByMape (x : ForecastResult) : List ForecastResult → List ForecastResult
  | [] => [x]
  | y :: ys => if y.metrics.mape < x.metrics.mape then y :: insertByMape x ys else x :: y :: ys

/-- Stable sort by ascending `mape`, modelling
`models.sort((a, b) => a.metrics.mape - b.metrics.mape)`. -/
def sortByMape : List ForecastResult → List ForecastResult
  | [] => []
  | x :: xs => insertByMape x (sortByMape xs)

/-- A placeholder result; `selectBestModel` sorts a three-element list, so
the default of `headD` below is never used. -/
def emptyForecast : ForecastResult :=
  { model := "", predictions := [], metrics := { mae := 0, mse := 0, mape := 0 }, confidence := 0 }

/-- Embeds `selectBestModel`: run the three models on the same history, sort them
by ascending `mape` (stably), return the first. -/
def selectBestModel (data : List SalesDataPoint) (tomorrow : String) : ForecastResult :=
  let models := [movingAverage data tomorrow, exponentialSmoothing data tomorrow,
                 linearRegression data tomorrow]
  (sortByMape models).headD emptyForecast

/-- The three-tier risk classification. -/
inductive RiskLevel where
  | Low
  | Medium
  | High
deriving DecidableEq, Repr

/-- Interface `InventoryRecommendation`. -/
structure InventoryRecommendation where
  forecastedDemand : ℚ
  recommendedStock : ℚ
  safetyStock : ℚ
  riskLevel : RiskLevel
  reasoning : String
deriving DecidableEq, Repr

/-- The confidence-banded safety-stock percentage:
`confidence > 80 ? 0.1 : confidence > 60 ? 0.15 : 0.2`. -/
def safetyStockPercent (confidence : ℚ) : ℚ :=
  if confidence > 80 then 1/10 else if confidence > 60 then 15/100 else 1/5

/-- Embeds `calculateInventoryRecommendation`: demand is the value of the final
prediction; safety stock is the rounded banded percentage of it; the three
risk rules are tried in order with the first match winning. -/
def calculateInventoryRecommendation (forecast : ForecastResult)
    (currentStock : ℚ) : InventoryRecommendation :=
  let forecastedDemand := (forecast.predictions.getLastD dummyPrediction).value
  let safetyStock : ℚ := (jsRound (forecastedDemand * safetyStockPercent forecast.confidence) : ℚ)
  let recommendedStock := forecastedDemand + safetyStock
  let riskLevel : RiskLevel :=
    if currentStock ≥ recommendedStock * (3/2) then .Medium
    else if currentStock < forecastedDemand * (4/5) then .High
    else .Low
  let reasoning : String :=
    if currentStock ≥ recommendedStock * (3/2) then
      "Overstock detected. Consider reducing orders or promotional discounts."
    else if currentStock < forecastedDemand * (4/5) then
      "Critical stock level. Immediate restocking recommended to avoid stockouts."
    else
      "Stock levels are optimal. Monitor for seasonal changes."
  { forecastedDemand := forecastedDemand
    recommendedStock := recommendedStock
    safetyStock := safetyStock
    riskLevel := riskLevel
    reasoning := reasoning }

/-- The kind of an insight. -/
inductive InsightType where
  | trend
  | festival
  | anomaly
  | seasonal
deriving DecidableEq, Repr

/-- The business impact direction of an insight. -/
inductive InsightImpact where
  | positive
  | negative
  | neutral
deriving DecidableEq, Repr

/-- Interface `Insight`. -/
structure Insight where
  type : InsightType
  title : String
  description : String
  actionable : String
  impact : InsightImpact
deriving DecidableEq, Repr

/-- Embeds `generateInsights`: the four insight rules (trend, festival, anomaly,
low confidence), each evaluated independently and emitted in this order.
`Math.max(...values)` and `Math.min(...values)` are modelled by folds
seeded with the first value, which agree with them on the non-empty lists
the pipeline passes in. -/
def generateInsights (data : List SalesDataPoint) (forecast : ForecastResult) : List Insight :=
  let values := data.map (·.quantity_sold)
  let recentAvg := (values.drop (values.length - 7)).sum / 7
  let overallAvg := values.sum / (values.length : ℚ)
  let trend := if recentAvg > overallAvg then "increasing" else "decreasing"
  let trendInsights : List Insight :=
    if |recentAvg - overallAvg| / overallAvg > 15/100 then
      [{ type := .trend
         title := "Demand is " ++ trend
         description := "Recent sales (" ++ toString (jsRound recentAvg) ++
           " units/day) are " ++ toString |jsRound ((recentAvg - overallAvg) / overallAvg * 100)| ++
           "% " ++ (if recentAvg > overallAvg then "higher" else "lower") ++ " than average."
         actionable :=
           if recentAvg > overallAvg then "Increase inventory levels to meet growing demand"
           else "Consider promotional activities to boost sales"
         impact := if recentAvg > overallAvg then .positive else .negative }]
    else []
  let festivalDays := data.filter (·.is_festival)
  let festivalInsights : List Insight :=
    if festivalDays.length > 0 then
      let festivalAvg := (festivalDays.map (·.quantity_sold)).sum / (festivalDays.length : ℚ)
      let nonFestivalAvg :=
        ((data.filter (fun d => !d.is_festival)).map (·.quantity_sold)).sum /
          ((data.length - festivalDays.length : ℕ) : ℚ)
      if festivalAvg > nonFestivalAvg * (13/10) then
        [{ type := .festival
           title := "Festival Impact Detected"
           description := "Sales increase by " ++
             toString (jsRound ((festivalAvg - nonFestivalAvg) / nonFestivalAvg * 100)) ++
             "% during festivals (" ++ toString (jsRound festivalAvg) ++ " vs " ++
             toString (jsRound nonFestivalAvg) ++ " units/day)."
           actionable := "Stock up 2-3 days before festivals. Plan promotional bundles."
           impact := .positive }]
      else []
    else []
  let mx := values.foldl max (values.headD 0)
  let mn := values.foldl min (values.headD 0)
  let anomalyInsights : List Insight :=
    if mx > overallAvg * 2 ∨ mn < overallAvg * (3/10) then
      [{ type := .anomaly
         title := "Sales Volatility Detected"
         description := "Sales vary significantly (" ++ toString mn ++ " to " ++ toString mx ++
           " units). High demand variability observed."
         actionable := "Maintain higher safety stock to buffer against unpredictable demand."
         impact := .neutral }]
    else []
  let confidenceInsights : List Insight :=
    if forecast.confidence < 70 then
      [{ type := .seasonal
         title := "Limited Forecast Confidence"
         description := "Model confidence is " ++ toString (jsRound forecast.confidence) ++
           "%. More historical data would improve accuracy."
         actionable := "Continue collecting sales data. Review forecast weekly."
         impact := .neutral }]
    else []
  trendInsights ++ festivalInsights ++ anomalyInsights ++ confidenceInsights

/-- Interface `BusinessImpact`. -/
structure BusinessImpact where
  overstockReduction : ℚ
  stockoutReduction : ℚ
  costSavings : ℚ
  revenueIncrease : ℚ
deriving DecidableEq, Repr

/-- Embeds `Math.max(0, currentStock - recommendedStock * 1.2)`. -/
def overstockAmount (currentStock recommendedStock : ℚ) : ℚ :=
  max 0 (currentStock - recommendedStock * (6/5))

/-- Embeds `Math.max(0, recommendedStock - currentStock)`. -/
def understockRisk (currentStock recommendedStock : ℚ) : ℚ :=
  max 0 (recommendedStock - currentStock)

/-- Embeds `calculateBusinessImpact`.  The source's `currentStock || 1` guard is
modelled by the conditional divisor; `forecastedDemand` is accepted but
unused, as in the source. -/
def calculateBusinessImpact (currentStock recommendedStock forecastedDemand unitPrice : ℚ) :
    BusinessImpact :=
  let overstock := overstockAmount currentStock recommendedStock
  let understock := understockRisk currentStock recommendedStock
  let overstockReduction : ℚ :=
    (jsRound (overstock / (if currentStock = 0 then 1 else currentStock) * 100) : ℚ)
  let stockoutReduction : ℚ := if understock > 0 then 75 else 95
  let holdingCostPercent : ℚ := 15/100
  let costSavings : ℚ := (jsRound (overstock * unitPrice * holdingCostPercent) : ℚ)
  let potentialLostSales : ℚ := if understock > 0 then understock * (3/10) else 0
  let revenueIncrease : ℚ := (jsRound (potentialLostSales * unitPrice) : ℚ)
  { overstockReduction := overstockReduction
    stockoutReduction := stockoutReduction
    costSavings := costSavings
    revenueIncrease := revenueIncrease }

/-- The output of the what-if simulation (`setWhatIfResults` payload). -/
structure WhatIfResult where
  adjustedDemand : ℚ
  adjustedRecommendedStock : ℚ
  riskLevel : RiskLevel
  impact : BusinessImpact
deriving DecidableEq, Repr

/-- Embeds `runWhatIfSimulation` from the dashboard component: adjusts demand by
the discount elasticity, rounds the adjusted recommended stock (reusing the
original safety stock), reapplies the three-tier risk rule against the
hypothetical stock, and recomputes the business impact at the discounted
unit price. -/
def runWhatIfSimulation (recommendation : InventoryRecommendation)
    (unit_price whatIfStock whatIfDiscount : ℚ) : WhatIfResult :=
  let adjustedDemand :=
    recommendation.forecastedDemand * (1 + whatIfDiscount / 100 * (1/2))
  let adjustedRecommendedStock : ℚ :=
    (jsRound (adjustedDemand + recommendation.safetyStock) : ℚ)
  let newRiskLevel : RiskLevel :=
    if whatIfStock ≥ adjustedRecommendedStock * (3/2) then .Medium
    else if whatIfStock < adjustedDemand * (4/5) then .High
    else .Low
  let impact := calculateBusinessImpact whatIfStock adjustedRecommendedStock adjustedDemand
    (unit_price * (1 - whatIfDiscount / 100))
  { adjustedDemand := (jsRound adjustedDemand : ℚ)
    adjustedRecommendedStock := adjustedRecommendedStock
    riskLevel := newRiskLevel
    impact := impact }

/-- The row inserted into the `forecasts` table by `generateForecast`. -/
structure ForecastRecord where
  forecast_date : String
  predicted_demand : ℚ
  recommended_stock : ℚ
  safety_stock : ℚ
  risk_level : RiskLevel
  model_used : String
  confidence_score : ℚ
deriving DecidableEq, Repr

/-- The outcome of pressing "Generate Forecast": either the insufficient
history alert with nothing computed or persisted, or the four derived
artifacts plus the persisted row. -/
inductive GenerateOutcome where
  | insufficientData (message : String)
  | success (forecast : ForecastResult) (recommendation : InventoryRecommendation)
      (insights : List Insight) (impact : BusinessImpact) (persisted : ForecastRecord)
deriving DecidableEq, Repr

/-- Embeds `generateForecast` from the dashboard component: refuses with the alert
message when fewer than 7 history points exist; otherwise runs the model
selection pipeline, derives the recommendation, insights and business
impact, and persists the forecast row. -/
def generateForecast (salesData : List SalesDataPoint) (current_stock unit_price : ℚ)
    (tomorrow : String) : GenerateOutcome :=
  if salesData.length < 7 then
    .insufficientData "Need at least 7 days of sales data to generate forecast"
  else
    let bestForecast := selectBestModel salesData tomorrow
    let inventoryRec := calculateInventoryRecommendation bestForecast current_stock
    let aiInsights := generateInsights salesData bestForecast
    let impact := calculateBusinessImpact current_stock inventoryRec.recommendedStock
      inventoryRec.forecastedDemand unit_price
    .success bestForecast inventoryRec aiInsights impact
      { forecast_date := (bestForecast.predictions.getLastD dummyPrediction).date
        predicted_demand := inventoryRec.forecastedDemand
        recommended_stock := inventoryRec.recommendedStock
        safety_stock := inventoryRec.safetyStock
        risk_level := inventoryRec.riskLevel
        model_used := bestForecast.model
        confidence_score := bestForecast.confidence }

/-- The eight-point history of the worked example, with `quantity_sold`
values `[10, 12, 11, 13, 14, 12, 15, 16]`. -/
def exampleData : List SalesDataPoint :=
  [{ date := "d0", quantity_sold := 10, is_festival := false },
   { date := "d1", quantity_sold := 12, is_festival := false },
   { date := "d2", quantity_sold := 11, is_festival := false },
   { date := "d3", quantity_sold := 13, is_festival := false },
   { date := "d4", quantity_sold := 14, is_festival := false },
   { date := "d5", quantity_sold := 12, is_festival := false },
   { date := "d6", quantity_sold := 15, is_festival := false },
   { date := "d7", quantity_sold := 16, is_festival := false }]

/-- A concrete forecast used as a witness input: final prediction value 10,
confidence 100. -/
def sampleForecast : ForecastResult :=
  { model := "Moving Average"
    predictions := [{ date := "2024-01-09", value := 10 }]
    metrics := { mae := 0, mse := 0, mape := 0 }
    confidence := 100 }

/-- A concrete forecast used as a witness input: final prediction value 10,
confidence 50. -/
def sampleForecastLow : ForecastResult :=
  { model := "Exponential Smoothing"
    predictions := [{ date := "2024-01-09", value := 10 }]
    metrics := { mae := 0, mse := 0, mape := 50 }
    confidence := 50 }

/-! ## Helper lemmas -/

theorem jsRound_intCast (m : ℤ) : jsRound (m : ℚ) = m := by
  unfold jsRound
  rw [add_comm, Int.floor_add_int]
  norm_num

theorem jsRound_nonneg {x : ℚ} (hx : 0 ≤ x) : 0 ≤ jsRound x := by
  unfold jsRound
  rw [Int.le_floor]
  push_cast
  linarith

theorem jsRound_mono {x y : ℚ} (hxy : x ≤ y) : jsRound x ≤ jsRound y := by
  unfold jsRound
  exact Int.floor_le_floor (by linarith)

theorem jsRound_zero : jsRound 0 = 0 := by
  have h := jsRound_intCast 0
  simpa using h

/-- The head of the stable sort of a three-element list is the earliest
element attaining the minimal `mape`. -/
theorem bestOfThree (a b c : ForecastResult) :
    (sortByMape [a, b, c]).headD emptyForecast =
      if a.metrics.mape ≤ b.metrics.mape ∧ a.metrics.mape ≤ c.metrics.mape then a
      else if b.metrics.mape ≤ c.metrics.mape then b else c := by
  have e0 : sortByMape [a, b, c] = insertByMape a (insertByMape b [c]) := by
    simp [sortByMape, insertByMape]
  rcases lt_or_le c.metrics.mape b.metrics.mape with h1 | h1
  · have e1 : insertByMape b [c] = [c, b] := by
      simp [insertByMape, h1]
    rcases lt_or_le c.metrics.mape a.metrics.mape with h2 | h2
    · have e2 : insertByMape a [c, b] = c :: insertByMape a [b] := by
        rw [insertByMape, if_pos h2]
      rw [e0, e1, e2, List.headD_cons]
      rw [if_neg (fun hA => absurd hA.2 (not_le.2 h2)), if_neg (not_le.2 h1)]
    · have e2 : insertByMape a [c, b] = [a, c, b] := by
        rw [insertByMape, if_neg (not_lt.2 h2)]
      rw [e0, e1, e2, List.headD_cons]
      rw [if_pos ⟨le_trans h2 (le_of_lt h1), h2⟩]
  · have e1 : insertByMape b [c] = [b, c] := by
      rw [insertByMape, if_neg (not_lt.2 h1)]
    rcases lt_or_le b.metrics.mape a.metrics.mape with h3 | h3
    · have e2 : insertByMape a [b, c] = b :: insertByMape a [c] := by
        rw [insertByMape, if_pos h3]
      rw [e0, e1, e2, List.headD_cons]
      rw [if_neg (fun hA => absurd hA.1 (not_le.2 h3)), if_pos h1]
    · have e2 : insertByMape a [b, c] = [a, b, c] := by
        rw [insertByMape, if_neg (not_lt.2 h3)]
      rw [e0, e1, e2, List.headD_cons]
      rw [if_pos ⟨h3, le_trans h3 h1⟩]

/-- Sum of a function over zipped lists as an indexed sum over the first
`min` of the lengths. -/
theorem zip_map_sum (f : ℚ × ℚ → ℚ) :
    ∀ (a p : List ℚ),
      ((a.zip p).map f).sum =
        ∑ i ∈ Finset.range (min a.length p.length), f (a.getD i 0, p.getD i 0)
  | [], p => by simp
  | x :: xs, [] => by simp
  | x :: xs, y :: ys => by
    have ih := zip_map_sum f xs ys
    simp only [List.zip_cons_cons, List.map_cons, List.sum_cons, List.length_cons,
      Nat.succ_min_succ, Finset.sum_range_succ', List.getD_cons_succ, List.getD_cons_zero]
    rw [ih]
    ring

/-- Zipping a list with itself and summing a vanishing-on-the-diagonal
function gives zero. -/
theorem zip_self_map_sum_zero (f : ℚ × ℚ → ℚ) (hf : ∀ a, f (a, a) = 0) :
    ∀ v : List ℚ, ((v.zip v).map f).sum = 0
  | [] => by simp
  | x :: xs => by
    have ih := zip_self_map_sum_zero f hf xs
    simp only [List.zip_cons_cons, List.map_cons, List.sum_cons, ih, hf, add_zero]

/-- Scoring a sequence against itself gives all-zero metrics. -/
theorem calculateMetrics_self (v : List ℚ) :
    calculateMetrics v v = { mae := 0, mse := 0, mape := 0 } := by
  unfold calculateMetrics
  dsimp only
  rw [zip_self_map_sum_zero (fun p => |p.1 - p.2|) (fun a => by simp) v,
    zip_self_map_sum_zero (fun p => |p.1 - p.2| * |p.1 - p.2|) (fun a => by simp) v,
    zip_self_map_sum_zero (fun p => if p.1 ≠ 0 then |(p.1 - p.2) / p.1| else 0)
      (fun a => by simp) v]
  simp

/-- The earliest-minimum conditional has `mape` below each of the three
candidates. -/
theorem bestOfThree_le (a b c : ForecastResult) :
    (if a.metrics.mape ≤ b.metrics.mape ∧ a.metrics.mape ≤ c.metrics.mape then a
     else if b.metrics.mape ≤ c.metrics.mape then b else c).metrics.mape ≤ a.metrics.mape ∧
    (if a.metrics.mape ≤ b.metrics.mape ∧ a.metrics.mape ≤ c.metrics.mape then a
     else if b.metrics.mape ≤ c.metrics.mape then b else c).metrics.mape ≤ b.metrics.mape ∧
    (if a.metrics.mape ≤ b.metrics.mape ∧ a.metrics.mape ≤ c.metrics.mape then a
     else if b.metrics.mape ≤ c.metrics.mape then b else c).metrics.mape ≤ c.metrics.mape := by
  split_ifs with h1 h2
  · exact ⟨le_refl _, h1.1, h1.2⟩
  · push_neg at h1
    refine ⟨?_, le_refl _, h2⟩
    rcases le_or_lt a.metrics.mape b.metrics.mape with hab | hab
    · have := h1 hab
      linarith
    · linarith
  · push_neg at h1
    push_neg at h2
    refine ⟨?_, le_of_lt h2, le_refl _⟩
    rcases le_or_lt a.metrics.mape b.metrics.mape with hab | hab
    · have := h1 hab
      linarith
    · linarith

/-- The safety-stock percentage is non-negative. -/
theorem safetyStockPercent_nonneg (c : ℚ) : 0 ≤ safetyStockPercent c := by
  unfold safetyStockPercent
  split_ifs <;> norm_num

/-- The safety-stock percentage never decreases when confidence drops. -/
theorem safetyStockPercent_antitone {c1 c2 : ℚ} (h : c2 ≤ c1) :
    safetyStockPercent c1 ≤ safetyStockPercent c2 := by
  unfold safetyStockPercent
  split_ifs <;> linarith

/-! ## Claims -/

/-- C1: for every sales history, `selectBestModel` runs Moving Average,
Exponential Smoothing and Linear Regression on the identical input and
returns the result with the lowest `mape`; on an exact tie the model
earlier in the evaluation order (Moving Average, then Exponential
Smoothing, then Linear Regression) wins. -/
theorem claim_C1 (data : List SalesDataPoint) (tomorrow : String) :
    selectBestModel data tomorrow =
      (if (movingAverage data tomorrow).metrics.mape ≤
            (exponentialSmoothing data tomorrow).metrics.mape ∧
          (movingAverage data tomorrow).metrics.mape ≤
            (linearRegression data tomorrow).metrics.mape
       then movingAverage data tomorrow
       else if (exponentialSmoothing data tomorrow).metrics.mape ≤
            (linearRegression data tomorrow).metrics.mape
       then exponentialSmoothing data tomorrow
       else linearRegression data tomorrow) ∧
    (selectBestModel data tomorrow).metrics.mape ≤
      (movingAverage data tomorrow).metrics.mape ∧
    (selectBestModel data tomorrow).metrics.mape ≤
      (exponentialSmoothing data tomorrow).metrics.mape ∧
    (selectBestModel data tomorrow).metrics.mape ≤
      (linearRegression data tomorrow).metrics.mape := by
  have e : selectBestModel data tomorrow =
      if (movingAverage data tomorrow).metrics.mape ≤
            (exponentialSmoothing data tomorrow).metrics.mape ∧
          (movingAverage data tomorrow).metrics.mape ≤
            (linearRegression data tomorrow).metrics.mape
       then movingAverage data tomorrow
       else if (exponentialSmoothing data tomorrow).metrics.mape ≤
            (linearRegression data tomorrow).metrics.mape
       then exponentialSmoothing data tomorrow
       else linearRegression data tomorrow := by
    unfold selectBestModel
    exact bestOfThree (movingAverage data tomorrow) (exponentialSmoothing data tomorrow)
      (linearRegression data tomorrow)
  refine ⟨e, ?_⟩
  rw [e]
  exact bestOfThree_le (movingAverage data tomorrow) (exponentialSmoothing data tomorrow)
    (linearRegression data tomorrow)

/-- C2 counterexample: the claim computes each mape term as
`|actual - predicted| / actual`, with the absolute value over the
numerator only; the code computes `|(actual - predicted) / actual|`.  At
`actual = [-1]`, `predicted = [0]` (where `n = 1` and the only term is the
index `0` one) the code yields `mape = 100` while the claim's formula
yields `-100`. -/
theorem claim_C2_counterexample :
    (calculateMetrics [(-1 : ℚ)] [0]).mape ≠
      100 * (|(-1 : ℚ) - 0| / (-1 : ℚ)) / 1 := by
  norm_num [calculateMetrics]

/-- C2 amended: over the first `n = min (len actual) (len predicted)`
indices (no error on a length mismatch), `mae` is the mean absolute
difference, `rmse` is the square root of the mean squared difference, and
`mape` is `100` times the sum of `|actual i - predicted i| / |actual i|`
over the indices with `actual i ≠ 0` (zero-actual indices contribute `0`),
divided by `n` — the divisor of the division by the actual value is its
absolute value, not the signed value. -/
theorem claim_C2_amended (actual predicted : List ℚ) :
    (calculateMetrics actual predicted).mae =
      (∑ i ∈ Finset.range (min actual.length predicted.length),
        |actual.getD i 0 - predicted.getD i 0|) /
        ((min actual.length predicted.length : ℕ) : ℚ) ∧
    Real.sqrt (((calculateMetrics actual predicted).mse : ℚ) : ℝ) =
      Real.sqrt ((((∑ i ∈ Finset.range (min actual.length predicted.length),
        (actual.getD i 0 - predicted.getD i 0) ^ 2) /
        ((min actual.length predicted.length : ℕ) : ℚ) : ℚ)) : ℝ) ∧
    (calculateMetrics actual predicted).mape =
      100 * (∑ i ∈ Finset.range (min actual.length predicted.length),
        if actual.getD i 0 ≠ 0 then
          |actual.getD i 0 - predicted.getD i 0| / |actual.getD i 0| else 0) /
        ((min actual.length predicted.length : ℕ) : ℚ) := by
  unfold calculateMetrics
  dsimp only
  rw [zip_map_sum (fun p => |p.1 - p.2|) actual predicted,
    zip_map_sum (fun p => |p.1 - p.2| * |p.1 - p.2|) actual predicted,
    zip_map_sum (fun p => if p.1 ≠ 0 then |(p.1 - p.2) / p.1| else 0) actual predicted,
    List.length_zip]
  refine ⟨rfl, ?_, ?_⟩
  · congr 1
    push_cast
    congr 1
    refine Finset.sum_congr rfl (fun i _ => ?_)
    rw [abs_mul_abs_self, sq]
  · rw [show (∑ i ∈ Finset.range (min actual.length predicted.length),
        if actual.getD i 0 ≠ 0 then |(actual.getD i 0 - predicted.getD i 0) / actual.getD i 0|
        else 0) =
        ∑ i ∈ Finset.range (min actual.length predicted.length),
        if actual.getD i 0 ≠ 0 then
          |actual.getD i 0 - predicted.getD i 0| / |actual.getD i 0| else 0 from
      Finset.sum_congr rfl (fun i _ => by rw [abs_div])]
    ring

/-- C3: on the worked example with window 3, the fitted predictions at
indices 3 through 7 are `[11, 12, 13, 13, 14]` and the forward forecast is
`14`; the metrics score `[13, 14, 12, 15, 16]` against `[11, 12, 13, 13,
14]`, giving `mae = 1.8`, `rmse ≈ 1.844` (`mse = 3.4`), `mape ≈ 12.77` and
`confidence ≈ 87.23`. -/
theorem claim_C3 :
    (movingAverage exampleData "tomorrow" 3).predictions =
      [{ date := "d3", value := 11 }, { date := "d4", value := 12 },
       { date := "d5", value := 13 }, { date := "d6", value := 13 },
       { date := "d7", value := 14 }, { date := "tomorrow", value := 14 }] ∧
    (movingAverage exampleData "tomorrow" 3).metrics =
      calculateMetrics [13, 14, 12, 15, 16] [11, 12, 13, 13, 14] ∧
    (movingAverage exampleData "tomorrow" 3).metrics.mae = 9/5 ∧
    (movingAverage exampleData "tomorrow" 3).metrics.mse = 17/5 ∧
    |Real.sqrt (((movingAverage exampleData "tomorrow" 3).metrics.mse : ℚ) : ℝ) -
      1.844| < 1/1000 ∧
    |(movingAverage exampleData "tomorrow" 3).metrics.mape - 12.77| < 1/100 ∧
    |(movingAverage exampleData "tomorrow" 3).confidence - 87.23| < 1/100 := by
  have hmse : (movingAverage exampleData "tomorrow" 3).metrics.mse = 17/5 := by
    norm_num [movingAverage, exampleData, List.range', jsRound, Int.floor_eq_iff,
      calculateMetrics]
  refine ⟨?_, ?_, ?_, hmse, ?_, ?_, ?_⟩
  · norm_num [movingAverage, exampleData, List.range', jsRound, Int.floor_eq_iff]
  · norm_num [movingAverage, exampleData, List.range', jsRound, Int.floor_eq_iff,
      calculateMetrics]
  · norm_num [movingAverage, exampleData, List.range', jsRound, Int.floor_eq_iff,
      calculateMetrics]
  · rw [hmse]
    have hc : (((17/5 : ℚ)) : ℝ) = 17/5 := by norm_num
    rw [hc]
    have hn := Real.sqrt_nonneg (17/5 : ℝ)
    have hs : Real.sqrt (17/5 : ℝ) ^ 2 = 17/5 := Real.sq_sqrt (by norm_num)
    rw [abs_lt]
    constructor <;> nlinarith [hn, hs]
  · norm_num [movingAverage, exampleData, List.range', jsRound, Int.floor_eq_iff,
      calculateMetrics, abs_lt, abs_of_pos]
  · norm_num [movingAverage, exampleData, List.range', jsRound, Int.floor_eq_iff,
      calculateMetrics, abs_lt, abs_of_pos, max_eq_right]

/-- C6: scoring any non-empty sequence against itself yields `mae = rmse =
mape = 0`, and the derived confidence `max 0 (100 - mape)` is `100`. -/
theorem claim_C6 (v : List ℚ) (hv : v ≠ []) :
    (calculateMetrics v v).mae = 0 ∧
    Real.sqrt (((calculateMetrics v v).mse : ℚ) : ℝ) = 0 ∧
    (calculateMetrics v v).mape = 0 ∧
    max 0 (100 - (calculateMetrics v v).mape) = 100 := by
  rw [calculateMetrics_self]
  norm_num

/-- C6 witness: the round-trip at the concrete sequence `[1]`. -/
theorem claim_C6_witness :
    ([(1 : ℚ)] ≠ []) ∧ max 0 (100 - (calculateMetrics [(1 : ℚ)] [1]).mape) = 100 :=
  ⟨by decide, (claim_C6 [(1 : ℚ)] (by decide)).2.2.2⟩

/-- C9: with fewer than 7 history points the pipeline refuses to run —
the outcome is the distinct insufficient-history signal, and no success
outcome (forecast, recommendation, insights, impact, persisted row) is
ever produced. -/
theorem claim_C9 (salesData : List SalesDataPoint) (current_stock unit_price : ℚ)
    (tomorrow : String) (h : salesData.length < 7) :
    generateForecast salesData current_stock unit_price tomorrow =
      GenerateOutcome.insufficientData
        "Need at least 7 days of sales data to generate forecast" ∧
    ∀ f r i b p, generateForecast salesData current_stock unit_price tomorrow ≠
      GenerateOutcome.success f r i b p := by
  have e : generateForecast salesData current_stock unit_price tomorrow =
      GenerateOutcome.insufficientData
        "Need at least 7 days of sales data to generate forecast" := by
    unfold generateForecast
    rw [if_pos h]
  refine ⟨e, fun f r i b p hc => ?_⟩
  rw [e] at hc
  exact GenerateOutcome.noConfusion hc

/-- C9 witness: the empty history is refused. -/
theorem claim_C9_witness :
    generateForecast [] 0 0 "tomorrow" =
      GenerateOutcome.insufficientData
        "Need at least 7 days of sales data to generate forecast" :=
  (claim_C9 [] 0 0 "tomorrow" (by decide)).1

/-- The `forecastedDemand` field is the value of the final prediction. -/
theorem calcRec_forecastedDemand (f : ForecastResult) (s : ℚ) :
    (calculateInventoryRecommendation f s).forecastedDemand =
      (f.predictions.getLastD dummyPrediction).value := rfl

/-- The `safetyStock` field is the rounded banded fraction of demand. -/
theorem calcRec_safetyStock (f : ForecastResult) (s : ℚ) :
    (calculateInventoryRecommendation f s).safetyStock =
      ((jsRound ((f.predictions.getLastD dummyPrediction).value *
        safetyStockPercent f.confidence) : ℤ) : ℚ) := rfl

/-- The `recommendedStock` field is demand plus safety stock. -/
theorem calcRec_recommendedStock (f : ForecastResult) (s : ℚ) :
    (calculateInventoryRecommendation f s).recommendedStock =
      (calculateInventoryRecommendation f s).forecastedDemand +
        (calculateInventoryRecommendation f s).safetyStock := rfl

/-- The risk field as the first-match-wins conditional over the record's
own fields. -/
theorem calcRec_riskLevel (f : ForecastResult) (s : ℚ) :
    (calculateInventoryRecommendation f s).riskLevel =
      if s ≥ (calculateInventoryRecommendation f s).recommendedStock * (3/2) then .Medium
      else if s < (calculateInventoryRecommendation f s).forecastedDemand * (4/5) then .High
      else .Low := rfl

/-- The safety stock of a recommendation is non-negative whenever the
forecast's final prediction value is. -/
theorem calcRec_safetyStock_nonneg (f : ForecastResult) (s : ℚ)
    (h : 0 ≤ (f.predictions.getLastD dummyPrediction).value) :
    0 ≤ (calculateInventoryRecommendation f s).safetyStock := by
  rw [calcRec_safetyStock]
  have := jsRound_nonneg (mul_nonneg h (safetyStockPercent_nonneg f.confidence))
  exact_mod_cast this

/-- C4: for a forecast whose final prediction value is a non-negative
integer, the recommendation has `safetyStock = round (demand *
safetyStockPercent confidence)`, `recommendedStock = demand + safetyStock
= round demand + safetyStock`, and `recommendedStock ≥ forecastedDemand`. -/
theorem claim_C4 (f : ForecastResult) (currentStock : ℚ) (m : ℤ)
    (hm : (f.predictions.getLastD dummyPrediction).value = (m : ℚ))
    (h0 : 0 ≤ m) :
    (calculateInventoryRecommendation f currentStock).safetyStock =
      ((jsRound ((f.predictions.getLastD dummyPrediction).value *
        safetyStockPercent f.confidence) : ℤ) : ℚ) ∧
    (calculateInventoryRecommendation f currentStock).recommendedStock =
      (f.predictions.getLastD dummyPrediction).value +
        (calculateInventoryRecommendation f currentStock).safetyStock ∧
    (calculateInventoryRecommendation f currentStock).recommendedStock =
      ((jsRound (f.predictions.getLastD dummyPrediction).value : ℤ) : ℚ) +
        (calculateInventoryRecommendation f currentStock).safetyStock ∧
    (calculateInventoryRecommendation f currentStock).forecastedDemand ≤
      (calculateInventoryRecommendation f currentStock).recommendedStock := by
  have hval : 0 ≤ (f.predictions.getLastD dummyPrediction).value := by
    rw [hm]
    exact_mod_cast h0
  refine ⟨calcRec_safetyStock f currentStock, ?_, ?_, ?_⟩
  · rw [calcRec_recommendedStock, calcRec_forecastedDemand]
  · rw [calcRec_recommendedStock, calcRec_forecastedDemand, hm, jsRound_intCast]
  · rw [calcRec_recommendedStock]
    have := calcRec_safetyStock_nonneg f currentStock hval
    linarith

/-- C4 witness: a concrete forecast with final value 10 and confidence
100. -/
theorem claim_C4_witness :
    (calculateInventoryRecommendation sampleForecast 5).forecastedDemand ≤
      (calculateInventoryRecommendation sampleForecast 5).recommendedStock :=
  (claim_C4 sampleForecast 5 10 (by simp [sampleForecast]) (by norm_num)).2.2.2

/-- C5: the three risk rules are tried in order with the first match
winning — any stock at or above `recommendedStock * 1.5` (so in
particular a stock exactly equal to it, and arbitrarily severe overstock)
is Medium; a non-negative stock one unit below `forecastedDemand * 0.8` is
High; a stock matching neither rule is Low. -/
theorem claim_C5 (f : ForecastResult) (t : ℚ)
    (ht : t = (calculateInventoryRecommendation f t).forecastedDemand * (4/5) - 1)
    (ht0 : 0 ≤ t) :
    (∀ s, (calculateInventoryRecommendation f s).recommendedStock * (3/2) ≤ s →
      (calculateInventoryRecommendation f s).riskLevel = RiskLevel.Medium) ∧
    (calculateInventoryRecommendation f t).riskLevel = RiskLevel.High ∧
    (∀ s, s < (calculateInventoryRecommendation f s).recommendedStock * (3/2) →
      (calculateInventoryRecommendation f s).forecastedDemand * (4/5) ≤ s →
      (calculateInventoryRecommendation f s).riskLevel = RiskLevel.Low) := by
  refine ⟨fun s hs => ?_, ?_, fun s h1 h2 => ?_⟩
  · rw [calcRec_riskLevel, if_pos hs]
  · have hdpos : 0 ≤ (f.predictions.getLastD dummyPrediction).value := by
      rw [calcRec_forecastedDemand] at ht
      nlinarith [ht0, ht]
    have hss := calcRec_safetyStock_nonneg f t hdpos
    have hrec : (calculateInventoryRecommendation f t).forecastedDemand ≤
        (calculateInventoryRecommendation f t).recommendedStock := by
      rw [calcRec_recommendedStock]
      linarith
    have hd : 0 ≤ (calculateInventoryRecommendation f t).forecastedDemand := by
      rw [calcRec_forecastedDemand]
      exact hdpos
    rw [calcRec_riskLevel, if_neg, if_pos]
    · linarith
    · intro habs
      have : (calculateInventoryRecommendation f t).recommendedStock * (3/2) ≤ t := habs
      nlinarith [hrec, hd, ht, ht0]
  · rw [calcRec_riskLevel, if_neg (not_le.2 h1), if_neg (not_lt.2 h2)]

/-- C5 witness: final value 10, confidence 100, stock `7 = 10 * 0.8 - 1`
is classified High. -/
theorem claim_C5_witness :
    (calculateInventoryRecommendation sampleForecast 7).riskLevel = RiskLevel.High :=
  (claim_C5 sampleForecast 7
    (by rw [calcRec_forecastedDemand]; simp [sampleForecast]; norm_num)
    (by norm_num)).2.1

/-- The adjusted demand reported by the what-if simulation. -/
theorem whatIf_adjustedDemand (r : InventoryRecommendation) (price st disc : ℚ) :
    (runWhatIfSimulation r price st disc).adjustedDemand =
      ((jsRound (r.forecastedDemand * (1 + disc / 100 * (1/2))) : ℤ) : ℚ) := rfl

/-- The risk level reported by the what-if simulation, as the first-match
conditional over the adjusted figures. -/
theorem whatIf_riskLevel (r : InventoryRecommendation) (price st disc : ℚ) :
    (runWhatIfSimulation r price st disc).riskLevel =
      if st ≥ ((jsRound (r.forecastedDemand * (1 + disc / 100 * (1/2)) + r.safetyStock) : ℤ) : ℚ) *
          (3/2) then .Medium
      else if st < r.forecastedDemand * (1 + disc / 100 * (1/2)) * (4/5) then .High
      else .Low := rfl

/-- C7: running the what-if simulation with a zero discount at the very
stock the recommendation was computed from reproduces the recommendation's
risk level, and its adjusted demand equals the original forecasted demand
(the final prediction value, assumed integral as every model produces
rounded values). -/
theorem claim_C7 (f : ForecastResult) (s price : ℚ) (m : ℤ)
    (hm : (f.predictions.getLastD dummyPrediction).value = (m : ℚ)) :
    (runWhatIfSimulation (calculateInventoryRecommendation f s) price s 0).riskLevel =
      (calculateInventoryRecommendation f s).riskLevel ∧
    (runWhatIfSimulation (calculateInventoryRecommendation f s) price s 0).adjustedDemand =
      (calculateInventoryRecommendation f s).forecastedDemand := by
  have hd : (calculateInventoryRecommendation f s).forecastedDemand = (m : ℚ) := by
    rw [calcRec_forecastedDemand, hm]
  have hnod : (calculateInventoryRecommendation f s).forecastedDemand *
      (1 + (0 : ℚ) / 100 * (1/2)) = (calculateInventoryRecommendation f s).forecastedDemand := by
    norm_num
  have hsum : (calculateInventoryRecommendation f s).forecastedDemand +
      (calculateInventoryRecommendation f s).safetyStock =
      ((m + jsRound ((m : ℚ) * safetyStockPercent f.confidence) : ℤ) : ℚ) := by
    rw [hd, calcRec_safetyStock, hm]
    push_cast
    ring
  constructor
  · rw [whatIf_riskLevel, calcRec_riskLevel, calcRec_recommendedStock, hnod, hsum,
      jsRound_intCast]
  · rw [whatIf_adjustedDemand, hnod, hd, jsRound_intCast]

/-- C7 witness: the concrete recommendation from `sampleForecast` at stock
5 is reproduced by the zero-discount what-if. -/
theorem claim_C7_witness :
    (runWhatIfSimulation (calculateInventoryRecommendation sampleForecast 5) 20 5 0).riskLevel =
      (calculateInventoryRecommendation sampleForecast 5).riskLevel :=
  (claim_C7 sampleForecast 5 20 10 (by simp [sampleForecast])).1

/-- C8: the safety-stock percentage is 0.10 above confidence 80, 0.15 on
(60, 80], and 0.20 at or below 60, and for a fixed demand the
recommended stock never shrinks when confidence drops. -/
theorem claim_C8 (f g : ForecastResult) (s1 s2 d : ℚ) (hd : 0 ≤ d)
    (hf : (f.predictions.getLastD dummyPrediction).value = d)
    (hg : (g.predictions.getLastD dummyPrediction).value = d)
    (hc : g.confidence ≤ f.confidence) :
    (calculateInventoryRecommendation f s1).recommendedStock ≤
      (calculateInventoryRecommendation g s2).recommendedStock ∧
    (∀ c : ℚ, 80 < c → safetyStockPercent c = 1/10) ∧
    (∀ c : ℚ, 60 < c → c ≤ 80 → safetyStockPercent c = 15/100) ∧
    (∀ c : ℚ, c ≤ 60 → safetyStockPercent c = 1/5) := by
  refine ⟨?_, fun c h1 => ?_, fun c h1 h2 => ?_, fun c h1 => ?_⟩
  · rw [calcRec_recommendedStock, calcRec_recommendedStock, calcRec_forecastedDemand,
      calcRec_forecastedDemand, calcRec_safetyStock, calcRec_safetyStock, hf, hg]
    have hp := safetyStockPercent_antitone hc
    have hj := jsRound_mono (mul_le_mul_of_nonneg_left hp hd)
    have hj2 : ((jsRound (d * safetyStockPercent f.confidence) : ℤ) : ℚ) ≤
        ((jsRound (d * safetyStockPercent g.confidence) : ℤ) : ℚ) := by
      exact_mod_cast hj
    linarith
  · unfold safetyStockPercent
    rw [if_pos h1]
  · unfold safetyStockPercent
    rw [if_neg (by linarith), if_pos h1]
  · unfold safetyStockPercent
    rw [if_neg (by linarith), if_neg (by linarith)]

/-- C8 witness: dropping confidence from 100 to 50 at demand 10 does not
shrink the recommended stock. -/
theorem claim_C8_witness :
    (calculateInventoryRecommendation sampleForecast 0).recommendedStock ≤
      (calculateInventoryRecommendation sampleForecastLow 0).recommendedStock :=
  (claim_C8 sampleForecast sampleForecastLow 0 0 10 (by norm_num)
    (by simp [sampleForecast]) (by simp [sampleForecastLow]) (by norm_num [sampleForecast,
      sampleForecastLow])).1

/-- The cost-savings field of the business impact. -/
theorem impact_costSavings (cs rs fd price : ℚ) :
    (calculateBusinessImpact cs rs fd price).costSavings =
      ((jsRound (overstockAmount cs rs * price * (15/100)) : ℤ) : ℚ) := rfl

/-- The revenue-increase field of the business impact. -/
theorem impact_revenueIncrease (cs rs fd price : ℚ) :
    (calculateBusinessImpact cs rs fd price).revenueIncrease =
      ((jsRound ((if understockRisk cs rs > 0 then understockRisk cs rs * (3/10) else 0) *
        price) : ℤ) : ℚ) := rfl

/-- C10: for non-negative current and recommended stock,
`calculateBusinessImpact` never reports positive cost savings and positive
revenue increase together: positive overstock forces the understock risk
(hence the revenue term) to zero, and positive understock risk forces the
overstock amount (hence the cost-savings term) to zero. -/
theorem claim_C10 (cs rs fd price : ℚ) (hcs : 0 ≤ cs) (hrs : 0 ≤ rs) :
    ¬ (0 < (calculateBusinessImpact cs rs fd price).costSavings ∧
       0 < (calculateBusinessImpact cs rs fd price).revenueIncrease) ∧
    (0 < overstockAmount cs rs → understockRisk cs rs = 0 ∧
      (calculateBusinessImpact cs rs fd price).revenueIncrease = 0) ∧
    (0 < understockRisk cs rs → overstockAmount cs rs = 0 ∧
      (calculateBusinessImpact cs rs fd price).costSavings = 0) := by
  have hrev0 : understockRisk cs rs = 0 →
      (calculateBusinessImpact cs rs fd price).revenueIncrease = 0 := by
    intro hu
    rw [impact_revenueIncrease, hu, if_neg (lt_irrefl 0), zero_mul, jsRound_zero]
    norm_num
  have hcost0 : overstockAmount cs rs = 0 →
      (calculateBusinessImpact cs rs fd price).costSavings = 0 := by
    intro ho
    rw [impact_costSavings, ho, zero_mul, zero_mul, jsRound_zero]
    norm_num
  have key1 : 0 < overstockAmount cs rs → understockRisk cs rs = 0 := by
    intro h
    have h2 : 0 < cs - rs * (6/5) := by
      rcases lt_max_iff.mp h with h3 | h3
      · exact absurd h3 (lt_irrefl 0)
      · exact h3
    unfold understockRisk
    exact max_eq_left (by linarith)
  have key2 : 0 < understockRisk cs rs → overstockAmount cs rs = 0 := by
    intro h
    have h2 : 0 < rs - cs := by
      rcases lt_max_iff.mp h with h3 | h3
      · exact absurd h3 (lt_irrefl 0)
      · exact h3
    unfold overstockAmount
    exact max_eq_left (by linarith)
  refine ⟨?_, fun h => ⟨key1 h, hrev0 (key1 h)⟩, fun h => ⟨key2 h, hcost0 (key2 h)⟩⟩
  rintro ⟨hcpos, hrpos⟩
  rcases lt_or_le 0 (overstockAmount cs rs) with hov | hov
  · rw [hrev0 (key1 hov)] at hrpos
    exact lt_irrefl 0 hrpos
  · have hoz : overstockAmount cs rs = 0 :=
      le_antisymm hov (le_max_left 0 _)
    rw [hcost0 hoz] at hcpos
    exact lt_irrefl 0 hcpos

/-- C10 witness: the exclusion at concrete stocks 0/0 and price 0. -/
theorem claim_C10_witness :
    ¬ (0 < (calculateBusinessImpact 0 0 0 0).costSavings ∧
       0 < (calculateBusinessImpact 0 0 0 0).revenueIncrease) :=
  (claim_C10 0 0 0 0 (le_refl 0) (le_refl 0)).1

end Salezy
